import Mathlib

/-!
Verification of the invoice-extractor repository.

This file is a shallow embedding of the two scripts of the repository,
src/scripts/paddle_ocr.py and src/scripts/vlm_preprocess.py, together with
theorems settling the frozen claims about them.  Pure Python functions are
translated to Lean functions; the calls to the external collaborators (the
OCR engine, the orientation classifier, the unwarping model and the image
codec) are abstracted as explicit outcome values handed to the translated
control flow, so that every try/except path of the source is represented.
-/

namespace PaddleOcr

/-- Model of a positioned OCR fragment, the tuple (text, y, x) built in
extract (paddle_ocr.py lines 114-130): the trimmed recognised text together
with the top-left anchor (minimum y, minimum x) of its bounding polygon. -/
structure Fragment where
  text : String
  y : Int
  x : Int
deriving DecidableEq

/-- Source paddle_ocr.py line 36: minimum confidence to include a line.
Confidence scores are modelled as rationals and the literal 0.30 as the
reduced fraction 3/10, given here by its numerator and denominator so that
it evaluates inside the kernel; the source guard `score < MIN_CONFIDENCE`
is a strict comparison. -/
def MIN_CONFIDENCE : ℚ := ⟨3, 10, by decide, by decide⟩

/-- Source paddle_ocr.py line 54: the row-grouping threshold in pixels. -/
def ROW_THRESHOLD : Nat := 50

/-- Strict lexicographic comparison on the sort key (f[1], f[2]) = (y, x)
used by `fragments.sort(key=lambda f: (f[1], f[2]))` (line 51). -/
def fragKeyLt (f g : Fragment) : Bool :=
  f.y < g.y || (f.y == g.y && f.x < g.x)

/-- Insertion of a fragment into an already sorted list, placing it after
every entry whose key is not strictly greater.  Together with the fold in
sortFragments this computes the stable ascending sort by (y, x) performed
at line 51 of paddle_ocr.py (Python list.sort is stable, and the stable
sort by a key is unique, so insertion sort is a faithful model). -/
def insertFrag (f : Fragment) : List Fragment → List Fragment
  | [] => [f]
  | g :: gs => if fragKeyLt f g then f :: g :: gs else g :: insertFrag f gs

/-- Stable sort by (y, x), modelling paddle_ocr.py line 51. -/
def sortFragments (fs : List Fragment) : List Fragment :=
  fs.foldl (fun acc f => insertFrag f acc) []

/-- Model of the row-grouping loop of build_clean_text (paddle_ocr.py lines
55-60), with the current row carried separately: `anchor` is the Python
`rows[-1][0]`, the FIRST fragment of the current row, and `cur` is the
current row built so far (whose head is `anchor`).  A fragment joins the
current row iff `abs(y - rows[-1][0][1]) < ROW_THRESHOLD`; otherwise it
starts a new row. -/
def groupAux (anchor : Fragment) (cur : List Fragment) : List Fragment → List (List Fragment)
  | [] => [cur]
  | f :: fs =>
      if (f.y - anchor.y).natAbs < ROW_THRESHOLD then groupAux anchor (cur ++ [f]) fs
      else cur :: groupAux f [f] fs

/-- Model of the whole grouping pass (paddle_ocr.py lines 55-60): rows
start empty and each fragment either extends the last row or opens a new
one. -/
def groupRows : List Fragment → List (List Fragment)
  | [] => []
  | f :: fs => groupAux f [f] fs

/-- Insertion step for the stable within-row sort by x,
`row.sort(key=lambda f: f[2])` (paddle_ocr.py line 65). -/
def insertByX (f : Fragment) : List Fragment → List Fragment
  | [] => [f]
  | g :: gs => if f.x < g.x then f :: g :: gs else g :: insertByX f gs

/-- Stable sort of one row by x, modelling paddle_ocr.py line 65. -/
def sortRowByX (row : List Fragment) : List Fragment :=
  row.foldl (fun acc f => insertByX f acc) []

/-- Model of build_clean_text (paddle_ocr.py lines 39-69): empty input
yields the sentinel, otherwise fragments are sorted by (y, x), grouped
into rows, each row sorted by x and joined with four spaces, and the rows
joined with newlines. -/
def build_clean_text (fragments : List Fragment) : String :=
  if fragments.isEmpty then "[No text detected]"
  else
    String.intercalate "\n"
      ((groupRows (sortFragments fragments)).map fun row =>
        String.intercalate "    " ((sortRowByX row).map Fragment.text))

/-- Model of the two result shapes accepted from the OCR engine
(paddle_ocr.py lines 108-130): the structured mapping of parallel arrays
rec_texts / rec_scores / dt_polys, or the legacy list of
(box, (text, score)) pairs. -/
inductive OcrCell where
  | structured (recTexts : List String) (recScores : List ℚ)
      (dtPolys : List (List (Int × Int)))
  | legacy (entries : List (List (Int × Int) × (String × ℚ)))
deriving DecidableEq

/-- Model of one OCR engine call for one page (paddle_ocr.py lines
100-106): the call raises, or returns a falsy result
(`not result or not result[0]`, line 102), or yields one result cell. -/
inductive OcrOutcome where
  | raises (msg : String)
  | empty
  | ok (cell : OcrCell)
deriving DecidableEq

/-- Removal of leading and trailing whitespace from a character list. -/
def stripChars (l : List Char) : List Char :=
  ((l.dropWhile Char.isWhitespace).reverse.dropWhile Char.isWhitespace).reverse

/-- Model of Python `text.strip()` (paddle_ocr.py lines 116, 120, 126,
130): drop leading and trailing whitespace.  Defined over the underlying
character list so that it evaluates inside the kernel; the whitespace
predicate is the Lean one, which agrees with Python on the ASCII
whitespace appearing in this development. -/
def pyStrip (s : String) : String := ⟨stripChars s.data⟩

/-- Model of `min(p[i] for p in poly)` over a polygon (paddle_ocr.py lines
118-119 and 128-129): none on an empty polygon, where the Python min
raises ValueError (caught by the page-level handler at line 135). -/
def polyMin (proj : Int × Int → Int) : List (Int × Int) → Option Int
  | [] => none
  | p :: ps => some (ps.foldl (fun m q => min m (proj q)) (proj p))

/-- Message of the Python ValueError raised by min on an empty sequence. -/
def emptyMinMsg : String := "min() arg is an empty sequence"

/-- Model of the fragment-collection loop for the structured shape
(paddle_ocr.py lines 110-120): zip over the three parallel arrays
(truncating at the shortest, as Python zip does), dropping items whose
score is below MIN_CONFIDENCE or whose trimmed text is empty, and
anchoring kept items at the polygon minima; an empty polygon on a kept
item raises. -/
def structuredFragments :
    List String → List ℚ → List (List (Int × Int)) → Except String (List Fragment)
  | text :: ts, score :: ss, poly :: ps =>
      if score < MIN_CONFIDENCE || pyStrip text == "" then structuredFragments ts ss ps
      else
        match polyMin Prod.fst poly, polyMin Prod.snd poly with
        | some xm, some ym =>
            (structuredFragments ts ss ps).map fun rest => ⟨pyStrip text, ym, xm⟩ :: rest
        | _, _ => .error emptyMinMsg
  | _, _, _ => .ok []

/-- Model of the fragment-collection loop for the legacy shape
(paddle_ocr.py lines 122-130), with the same filter and anchoring. -/
def legacyFragments :
    List (List (Int × Int) × (String × ℚ)) → Except String (List Fragment)
  | [] => .ok []
  | (box, (text, score)) :: rest =>
      if score < MIN_CONFIDENCE || pyStrip text == "" then legacyFragments rest
      else
        match polyMin Prod.fst box, polyMin Prod.snd box with
        | some xm, some ym =>
            (legacyFragments rest).map fun l => ⟨pyStrip text, ym, xm⟩ :: l
        | _, _ => .error emptyMinMsg

/-- Dispatch on the result shape (paddle_ocr.py line 110). -/
def fragmentsOf : OcrCell → Except String (List Fragment)
  | .structured ts ss ps => structuredFragments ts ss ps
  | .legacy ls => legacyFragments ls

/-- Model of the text produced for one page by the loop body of extract
(paddle_ocr.py lines 99-136): any exception inside the per-page try (the
OCR call itself, or the fragment building) is caught at line 135 and
becomes the placeholder of line 136; a falsy result gives the string of
line 103; otherwise the collected fragments go through build_clean_text. -/
def pageText : OcrOutcome → String
  | .raises msg => "[PaddleOCR extraction failed: " ++ msg ++ "]"
  | .empty => "[No OCR results]"
  | .ok cell =>
      match fragmentsOf cell with
      | .error msg => "[PaddleOCR extraction failed: " ++ msg ++ "]"
      | .ok frags => build_clean_text frags

/-- Model of the JSON value returned by extract (paddle_ocr.py lines
140-144). -/
structure DocumentResult where
  fullText : String
  pages : List String
  totalPages : Nat
deriving DecidableEq

/-- Model of extract (paddle_ocr.py lines 72-144): the per-page OCR engine
behaviour is abstracted as the list of outcomes for the discovered pages,
in page order.  The function raises FileNotFoundError (line 92) iff no
pages were found; otherwise every page contributes one text and the
document result is assembled at lines 138-144. -/
def extract (outcomes : List OcrOutcome) : Except String DocumentResult :=
  if outcomes.isEmpty then .error "No page_*.png images found"
  else
    .ok ⟨String.intercalate "\n\n---\n\n" (outcomes.map pageText),
         outcomes.map pageText, outcomes.length⟩

/-- Concrete confidence value 29/100, strictly below MIN_CONFIDENCE, used
in concrete instantiations of the filter theorems. -/
def scoreBelow : ℚ := ⟨29, 100, by decide, by decide⟩

end PaddleOcr

deriving instance DecidableEq for Except

namespace VlmPreprocess

/-- Source vlm_preprocess.py line 31: the 5 MiB VLM API limit. -/
def MAX_JPEG_BYTES : Nat := 5 * 1024 * 1024

/-- One downscaling step of a pixel dimension, `int(d * 0.85)`
(vlm_preprocess.py line 46), as the floor of 85 * d / 100. -/
def shrinkDim (n : Nat) : Nat := 85 * n / 100

/-- The external JPEG encoder (PIL img.save at the fixed quality 90),
abstracted as the byte size it produces for given pixel dimensions. -/
structure Codec where
  enc : Nat → Nat → Nat

/-- Model of the size-capping loop of save_capped_jpeg (vlm_preprocess.py
lines 44-48) on image dimensions, with explicit fuel because the source
loop has no iteration bound: while the encoded size exceeds
MAX_JPEG_BYTES, both dimensions shrink by 0.85 and the image is
re-encoded.  Returns the dimensions at loop exit; none means the loop is
still running after `fuel` iterations. -/
def capLoop (c : Codec) : Nat → Nat × Nat → Option (Nat × Nat)
  | 0, _ => none
  | fuel + 1, (w, h) =>
      if MAX_JPEG_BYTES < c.enc w h then capLoop c fuel (shrinkDim w, shrinkDim h)
      else some (w, h)

/-- Model of save_capped_jpeg (vlm_preprocess.py lines 34-51): the number
of bytes written to the output file (the final buffer contents, line 51),
when the loop exits within `fuel` iterations. -/
def save_capped_jpeg (c : Codec) (fuel w h : Nat) : Option Nat :=
  (capLoop c fuel (w, h)).map fun wh => c.enc wh.1 wh.2

/-- The size-capping loop never exits, whatever fuel it is given: the
meaning of non-termination in the fuel model. -/
def loopsForever (c : Codec) (p : Nat × Nat) : Prop :=
  ∀ fuel, capLoop c fuel p = none

/-- Model of the outcome of the unwarp-stage body once it is reached
(vlm_preprocess.py lines 105-129): either the model call or the extraction
of its output raises (caught by the inner except at line 130), or the call
returns with doctr_img that is or is not an ndarray (line 120). -/
inductive UnwarpOutcome where
  | raises (msg : String)
  | ok (isNdarray : Bool)
deriving DecidableEq

/-- Model of the behaviour of the external calls made while processing one
page of preprocess (vlm_preprocess.py lines 86-152): the orientation stage
(predict + label parse + Image.open, lines 92-100) yields an angle or
raises; the unwarp-stage body behaves as `unwarp`; the step-3 save (line
137) and the fallback reload-and-save (lines 148-151) each succeed or
raise. -/
structure PageInput where
  ori : Except String Int
  unwarp : UnwarpOutcome
  save : Except String Unit
  fallbackSave : Except String Unit
deriving DecidableEq

/-- Model of the diagnostic record for one page (the info dict of
vlm_preprocess.py line 88), plus whether the page was produced by the
orchestrator-level fallback path (lines 144-152). -/
structure PageOut where
  rotated : Int
  unwarped : Bool
  viaFallback : Bool
deriving DecidableEq

/-- Result of processing one page, together with the fate of the temporary
file of the unwarp stage: whether one was created (line 109, exactly when
rotation occurred) and whether it was deleted (lines 127-128). -/
structure PageTrace where
  result : Except String PageOut
  tmpCreated : Bool
  tmpDeleted : Bool
deriving DecidableEq

/-- Model of step 3 together with the page-level fallback
(vlm_preprocess.py lines 134-152): if the save raises, the outer except
at line 144 runs the fallback save; if that raises too, the exception
escapes the page loop.  The rotated / unwarped diagnostic values recorded
before the failure persist in the info dict. -/
def encodeOrFallback (inp : PageInput) (rotated : Int) (unwarped : Bool) :
    Except String PageOut :=
  match inp.save with
  | .ok _ => .ok ⟨rotated, unwarped, false⟩
  | .error _ =>
      match inp.fallbackSave with
      | .ok _ => .ok ⟨rotated, unwarped, true⟩
      | .error e => .error e

/-- Model of the body of the page loop of preprocess (vlm_preprocess.py
lines 86-154).  If the orientation stage raises, the outer except runs the
fallback on the original image (no temp file was created).  Otherwise the
unwarp stage runs: the temp file is created exactly when the angle is
non-zero (lines 107-111); when the stage body raises, the inner except at
line 130 catches it and control reaches step 3 with the unlink at lines
127-128 skipped; when the stage body returns, the unlink runs. -/
def processPage (inp : PageInput) : PageTrace :=
  match inp.ori with
  | .error _ =>
      match inp.fallbackSave with
      | .ok _ => ⟨.ok ⟨0, false, true⟩, false, false⟩
      | .error e => ⟨.error e, false, false⟩
  | .ok angle =>
      match inp.unwarp with
      | .raises _ => ⟨encodeOrFallback inp angle false, angle != 0, false⟩
      | .ok nd => ⟨encodeOrFallback inp angle nd, angle != 0, angle != 0⟩

/-- Model of the page loop of preprocess (vlm_preprocess.py lines 85-154):
pages are processed in order; an exception escaping a page aborts the whole
run immediately. -/
def preprocessGo : List PageInput → Except String (List PageOut)
  | [] => .ok []
  | i :: is =>
      match (processPage i).result with
      | .error e => .error e
      | .ok p => (preprocessGo is).map fun rest => p :: rest

/-- Model of preprocess (vlm_preprocess.py lines 54-156): raises
FileNotFoundError (line 83) iff no pages were found, otherwise runs the
page loop. -/
def preprocess (inps : List PageInput) : Except String (List PageOut) :=
  if inps.isEmpty then .error "No page_*.png images found"
  else preprocessGo inps

/-- Concrete codec whose encoded size is the pixel count, used to witness
the size-cap theorem. -/
def areaCodec : Codec := ⟨fun w h => w * h⟩

/-- Concrete codec that always reports a size one byte over the ceiling,
used to refute unconditional termination of the size-cap loop. -/
def oversizeCodec : Codec := ⟨fun _ _ => MAX_JPEG_BYTES + 1⟩

/-- Concrete page input on which rotation occurred and the unwarp model
call raised: the temp-file leak input. -/
def leakInput : PageInput := ⟨.ok 90, .raises "unwarp model crashed", .ok (), .ok ()⟩

end VlmPreprocess


open PaddleOcr VlmPreprocess

/-- Helper for the row-grouping invariant: every row emitted by the
grouping loop keeps all of its fragments strictly within ROW_THRESHOLD of
the row's first fragment, provided the current row already satisfies
this. -/
theorem groupAux_within (fs : List Fragment) : ∀ (anchor : Fragment) (cur : List Fragment),
    cur.head? = some anchor →
    (∀ g ∈ cur, (g.y - anchor.y).natAbs < ROW_THRESHOLD) →
    ∀ row ∈ groupAux anchor cur fs, ∀ first, row.head? = some first →
      ∀ g ∈ row, (g.y - first.y).natAbs < ROW_THRESHOLD := by
  induction fs with
  | nil =>
      intro anchor cur hhead hcur row hrow first hfirst g hg
      simp only [groupAux, List.mem_singleton] at hrow
      subst hrow
      rw [hhead] at hfirst
      injection hfirst with hfirst
      subst hfirst
      exact hcur g hg
  | cons f fs ih =>
      intro anchor cur hhead hcur row hrow first hfirst g hg
      obtain ⟨ctail, rfl⟩ : ∃ t, cur = anchor :: t := by
        cases cur with
        | nil => simp at hhead
        | cons a t =>
            injection hhead with hhead
            exact ⟨t, by rw [hhead]⟩
      by_cases hth : (f.y - anchor.y).natAbs < ROW_THRESHOLD
      · rw [groupAux, if_pos hth] at hrow
        refine ih anchor ((anchor :: ctail) ++ [f]) rfl ?_ row hrow first hfirst g hg
        intro g2 hg2
        rcases List.mem_append.mp hg2 with h2 | h2
        · exact hcur g2 h2
        · rw [List.mem_singleton.mp h2]
          exact hth
      · rw [groupAux, if_neg hth] at hrow
        rcases List.mem_cons.mp hrow with hrow | hrow
        · subst hrow
          rw [hhead] at hfirst
          injection hfirst with hfirst
          subst hfirst
          exact hcur g hg
        · refine ih f [f] rfl ?_ row hrow first hfirst g hg
          intro g2 hg2
          rw [List.mem_singleton.mp hg2]
          simp [ROW_THRESHOLD]

/-- Claim C1, amended: the row grouping of build_clean_text is anchored at
each row's FIRST fragment, so a sorted chain whose members stay within the
50-unit threshold of their immediate predecessor DOES split as soon as a
member's anchor_y is at least 50 units from the current row's first
fragment's anchor_y.  Positively: every fragment of every produced row
lies strictly within ROW_THRESHOLD of that row's first fragment. -/
theorem C1_row_grouping_anchored (fs : List Fragment) :
    ∀ row ∈ groupRows (sortFragments fs), ∀ first, row.head? = some first →
      ∀ g ∈ row, (g.y - first.y).natAbs < ROW_THRESHOLD := by
  intro row hrow first hfirst g hg
  cases hs : sortFragments fs with
  | nil => rw [hs] at hrow; simp [groupRows] at hrow
  | cons f t =>
      rw [hs] at hrow
      refine groupAux_within t f [f] rfl ?_ row hrow first hfirst g hg
      intro g2 hg2
      rw [List.mem_singleton.mp hg2]
      simp [ROW_THRESHOLD]

/-- Witness for C1_row_grouping_anchored at a concrete fragment list. -/
theorem C1_row_grouping_anchored_witness :
    (((⟨"p", 0, 0⟩ : Fragment)).y - ((⟨"p", 0, 0⟩ : Fragment)).y).natAbs < ROW_THRESHOLD :=
  C1_row_grouping_anchored [⟨"p", 0, 0⟩, ⟨"q", 60, 0⟩] [⟨"p", 0, 0⟩] (by decide)
    ⟨"p", 0, 0⟩ (by decide) ⟨"p", 0, 0⟩ (by decide)

/-- Counterexample to claim C1 as stated: the chain a(y=0), b(y=40),
c(y=80) has each member within the 50-unit threshold of its immediate
predecessor, and c is cumulatively at least 50 units from the row's first
fragment a; the claim says such a chain does not split, but
build_clean_text splits it into two rows. -/
theorem C1_counterexample :
    ((40 : Int) - 0).natAbs < ROW_THRESHOLD ∧
    ((80 : Int) - 40).natAbs < ROW_THRESHOLD ∧
    ¬ ((80 : Int) - 0).natAbs < ROW_THRESHOLD ∧
    groupRows (sortFragments [⟨"a", 0, 0⟩, ⟨"b", 40, 0⟩, ⟨"c", 80, 0⟩]) =
      [[⟨"a", 0, 0⟩, ⟨"b", 40, 0⟩], [⟨"c", 80, 0⟩]] ∧
    build_clean_text [⟨"a", 0, 0⟩, ⟨"b", 40, 0⟩, ⟨"c", 80, 0⟩] = "a    b\nc" := by
  decide

/-- Claim C5: on the fragment list [(Milk,100,10), ($3.99,102,300),
(Eggs,200,10), ($4.50,198,300)] the reconstruction produces exactly two
rows and the text joins item and price on the same line. -/
theorem C5_example1 :
    (groupRows (sortFragments [⟨"Milk", 100, 10⟩, ⟨"$3.99", 102, 300⟩,
        ⟨"Eggs", 200, 10⟩, ⟨"$4.50", 198, 300⟩])).length = 2 ∧
    build_clean_text [⟨"Milk", 100, 10⟩, ⟨"$3.99", 102, 300⟩,
        ⟨"Eggs", 200, 10⟩, ⟨"$4.50", 198, 300⟩] = "Milk    $3.99\nEggs    $4.50" := by
  decide

/-- Claim C7: the empty fragment collection yields exactly the sentinel
string, which is not the empty string (and build_clean_text is total, so
no error is possible). -/
theorem C7_empty_sentinel :
    build_clean_text [] = "[No text detected]" ∧ "[No text detected]" ≠ "" := by
  decide

/-- Counterexample to claim C2 as stated: the placeholder written by the
code for a raising OCR call is "[PaddleOCR extraction failed: <reason>]",
not the claimed "[OCR extraction failed: <reason>]". -/
theorem C2_counterexample :
    pageText (.raises "boom") = "[PaddleOCR extraction failed: boom]" ∧
    pageText (.raises "boom") ≠ "[OCR extraction failed: boom]" := by
  decide

/-- Claim C2, amended: for every page whose OCR call raises, extract does
not propagate the exception; that page's text is the placeholder
"[PaddleOCR extraction failed: <reason>]" with the exception message
substituted, and every page's text depends only on that page's own
outcome, so the other pages of the run are unaffected. -/
theorem C2_ocr_failure_contained (outcomes : List OcrOutcome) (i : Nat) (msg : String)
    (h : outcomes[i]? = some (.raises msg)) :
    (outcomes.map pageText)[i]? =
      some ("[PaddleOCR extraction failed: " ++ msg ++ "]") ∧
    (∃ doc, extract outcomes = .ok doc ∧ doc.pages = outcomes.map pageText ∧
      doc.totalPages = outcomes.length) ∧
    ∀ j : Nat, (outcomes.map pageText)[j]? = outcomes[j]?.map pageText := by
  refine ⟨?_, ?_, fun j => List.getElem?_map ..⟩
  · rw [List.getElem?_map, h]
    rfl
  · cases outcomes with
    | nil => simp at h
    | cons a t => exact ⟨_, rfl, rfl, rfl⟩

/-- Witness for C2_ocr_failure_contained on a concrete two-page run. -/
theorem C2_ocr_failure_contained_witness :
    (([.raises "boom", .empty] : List OcrOutcome).map pageText)[0]? =
      some ("[PaddleOCR extraction failed: " ++ "boom" ++ "]") ∧
    (∃ doc, extract [.raises "boom", .empty] = .ok doc ∧
      doc.pages = ([.raises "boom", .empty] : List OcrOutcome).map pageText ∧
      doc.totalPages = ([.raises "boom", .empty] : List OcrOutcome).length) ∧
    ∀ j : Nat, (([.raises "boom", .empty] : List OcrOutcome).map pageText)[j]? =
      ([.raises "boom", .empty] : List OcrOutcome)[j]?.map pageText :=
  C2_ocr_failure_contained [.raises "boom", .empty] 0 "boom" rfl

/-- Claim C6: the confidence filter of the Fragment Collector drops an
item iff its score is strictly below MIN_CONFIDENCE (or its stripped text
is empty): an item whose score equals the 0.30 threshold exactly is
retained and an item strictly below it is dropped, in both accepted
result shapes. -/
theorem C6_confidence_filter (text : String) (score : ℚ) (poly : List (Int × Int))
    (ts : List String) (ss : List ℚ) (ps : List (List (Int × Int)))
    (rest : List (List (Int × Int) × (String × ℚ))) :
    (score < MIN_CONFIDENCE →
      structuredFragments (text :: ts) (score :: ss) (poly :: ps) =
        structuredFragments ts ss ps ∧
      legacyFragments ((poly, (text, score)) :: rest) = legacyFragments rest) ∧
    (score = MIN_CONFIDENCE → pyStrip text ≠ "" →
      ∀ xm ym, polyMin Prod.fst poly = some xm → polyMin Prod.snd poly = some ym →
      structuredFragments (text :: ts) (score :: ss) (poly :: ps) =
        (structuredFragments ts ss ps).map (fun l => ⟨pyStrip text, ym, xm⟩ :: l) ∧
      legacyFragments ((poly, (text, score)) :: rest) =
        (legacyFragments rest).map (fun l => ⟨pyStrip text, ym, xm⟩ :: l)) := by
  constructor
  · intro hlt
    constructor
    · rw [structuredFragments, if_pos]
      simp [hlt]
    · rw [legacyFragments, if_pos]
      simp [hlt]
  · intro heq hne xm ym hx hy
    have hguard : (decide (score < MIN_CONFIDENCE) || (pyStrip text == "")) = false := by
      subst heq
      simp [hne]
    constructor
    · rw [structuredFragments, if_neg (by simp_all), hx, hy]
    · rw [legacyFragments, if_neg (by simp_all), hx, hy]

/-- Witness for C6_confidence_filter: an item exactly at the threshold is
retained, an item at 29/100 is dropped, in both shapes. -/
theorem C6_confidence_filter_witness :
    structuredFragments ["Milk"] [MIN_CONFIDENCE] [[(10, 100)]] = .ok [⟨"Milk", 100, 10⟩] ∧
    structuredFragments ["Bad"] [scoreBelow] [[(10, 100)]] = .ok [] ∧
    legacyFragments [([(10, 100)], ("Milk", MIN_CONFIDENCE))] = .ok [⟨"Milk", 100, 10⟩] ∧
    legacyFragments [([(10, 100)], ("Bad", scoreBelow))] = .ok [] := by
  have hkeep := (C6_confidence_filter "Milk" MIN_CONFIDENCE [(10, 100)] [] [] [] []).2
    rfl (by decide) 10 100 rfl rfl
  have hdrop := (C6_confidence_filter "Bad" scoreBelow [(10, 100)] [] [] [] []).1 (by decide)
  exact ⟨by rw [hkeep.1]; rfl, by rw [hdrop.1]; rfl, by rw [hkeep.2]; rfl,
    by rw [hdrop.2]; rfl⟩

/-- Counterexample to the parenthetical of claim C10: a structured (hence
truthy) OCR result whose parallel arrays are empty contains no
recognitions at all, yet the page text is the "[No text detected]"
sentinel — so the sentinel does not appear only when recognitions exist
but are all filtered out. -/
theorem C10_counterexample :
    fragmentsOf (.structured [] [] []) = .ok [] ∧
    pageText (.ok (.structured [] [] [])) = "[No text detected]" := by
  decide

/-- Claim C10, amended: for every page whose OCR call returns an empty or
falsy result, the page text is "[No OCR results]" — a third placeholder,
distinct from the "[No text detected]" sentinel (which appears whenever a
truthy result yields zero retained fragments, whether recognitions were
filtered out or none were present) and from every extraction-failure
placeholder; the spec never mentions this string. -/
theorem C10_no_ocr_results (outcomes : List OcrOutcome) (i : Nat)
    (h : outcomes[i]? = some .empty) :
    (outcomes.map pageText)[i]? = some "[No OCR results]" ∧
    "[No OCR results]" ≠ "[No text detected]" ∧
    (∀ msg, "[No OCR results]" ≠ "[PaddleOCR extraction failed: " ++ msg ++ "]") ∧
    (∀ cell, fragmentsOf cell = .ok [] → pageText (.ok cell) = "[No text detected]") := by
  refine ⟨?_, by decide, ?_, ?_⟩
  · rw [List.getElem?_map, h]
    rfl
  · intro msg heq
    have hlen := congrArg String.length heq
    rw [String.length_append, String.length_append] at hlen
    have h1 : "[No OCR results]".length = 16 := by decide
    have h2 : "[PaddleOCR extraction failed: ".length = 30 := by decide
    have h3 : "]".length = 1 := by decide
    rw [h1, h2, h3] at hlen
    omega
  · intro cell hc
    show (match fragmentsOf cell with
      | .error msg => "[PaddleOCR extraction failed: " ++ msg ++ "]"
      | .ok frags => build_clean_text frags) = "[No text detected]"
    rw [hc]
    rfl

/-- Witness for C10_no_ocr_results on a concrete run. -/
theorem C10_no_ocr_results_witness :
    (([.empty, .raises "x"] : List OcrOutcome).map pageText)[0]? =
      some "[No OCR results]" ∧
    "[No OCR results]" ≠ "[No text detected]" ∧
    (∀ msg, "[No OCR results]" ≠ "[PaddleOCR extraction failed: " ++ msg ++ "]") ∧
    (∀ cell, fragmentsOf cell = .ok [] → pageText (.ok cell) = "[No text detected]") :=
  C10_no_ocr_results [.empty, .raises "x"] 0 rfl

/-- Counterexample to claim C3 as stated: on a page where rotation
occurred (angle 90) and the unwarp model call raised, the temporary file
created for the rotated image is NOT deleted — the unlink sits inside the
stage try block after the model call, so the raising path skips it — even
though the page itself still completes successfully. -/
theorem C3_counterexample :
    (processPage leakInput).tmpCreated = true ∧
    (processPage leakInput).tmpDeleted = false ∧
    (processPage leakInput).result = .ok ⟨90, false, false⟩ := by
  decide

/-- Claim C3, amended: the unwarping stage creates its temporary file
exactly when rotation occurred, and deletes it exactly on the stage
success path (when the unwarp model call returns, whether or not its
output is usable); when the model call or output extraction raises, the
temporary file is not deleted on any path, including the
orchestrator-level fallback. -/
theorem C3_tmp_file_fate (inp : PageInput) (angle : Int) (h : inp.ori = .ok angle) :
    (processPage inp).tmpCreated = (angle != 0) ∧
    ((processPage inp).tmpDeleted = true ↔
      (angle ≠ 0 ∧ ∃ b, inp.unwarp = .ok b)) := by
  unfold processPage
  rw [h]
  cases hu : inp.unwarp with
  | raises m =>
      refine ⟨rfl, ?_⟩
      simp
  | ok nd =>
      refine ⟨rfl, ?_⟩
      simp [bne_iff_ne]

/-- Witness for C3_tmp_file_fate at a concrete rotated page whose unwarp
stage succeeds. -/
theorem C3_tmp_file_fate_witness :
    (processPage ⟨.ok 90, .ok true, .ok (), .ok ()⟩).tmpCreated = ((90 : Int) != 0) ∧
    ((processPage ⟨.ok 90, .ok true, .ok (), .ok ()⟩).tmpDeleted = true ↔
      ((90 : Int) ≠ 0 ∧
        ∃ b, (⟨.ok 90, .ok true, .ok (), .ok ()⟩ : PageInput).unwarp = .ok b)) :=
  C3_tmp_file_fate ⟨.ok 90, .ok true, .ok (), .ok ()⟩ 90 rfl

/-- Counterexample to claim C4 as stated: with one page found (a
non-empty page sequence), a page-level error in the fallback encoding
step escapes the preprocessing aggregator and aborts the run — so the
aggregator can fail even though more than zero pages were found. -/
theorem C4_counterexample :
    preprocess [⟨.error "orientation model crashed", .ok false, .ok (), .error "disk full"⟩]
      = .error "disk full" := by
  decide

/-- Helper: when the fallback save succeeds, step 3 plus the page-level
fallback always yields a page result. -/
theorem encodeOrFallback_ok (inp : PageInput) (r : Int) (u : Bool)
    (hfb : inp.fallbackSave = .ok ()) : ∃ p, encodeOrFallback inp r u = .ok p := by
  unfold encodeOrFallback
  split
  · exact ⟨_, rfl⟩
  · rw [hfb]
    exact ⟨_, rfl⟩

/-- Helper: when the fallback save succeeds, processing a page never lets
an exception escape. -/
theorem processPage_ok (inp : PageInput) (hfb : inp.fallbackSave = .ok ()) :
    ∃ p, (processPage inp).result = .ok p := by
  unfold processPage
  split
  · rw [hfb]
    exact ⟨_, rfl⟩
  · split
    · exact encodeOrFallback_ok inp _ false hfb
    · exact encodeOrFallback_ok inp _ _ hfb

/-- Helper: the page loop of preprocess succeeds, one result per page,
when every page's fallback save succeeds. -/
theorem preprocessGo_ok (inps : List PageInput)
    (h3 : ∀ i ∈ inps, i.fallbackSave = .ok ()) :
    ∃ outs, preprocessGo inps = .ok outs ∧ outs.length = inps.length := by
  induction inps with
  | nil => exact ⟨[], rfl, rfl⟩
  | cons i is ih =>
      obtain ⟨outs, hgo, hlen⟩ := ih fun j hj => h3 j (List.mem_cons_of_mem i hj)
      obtain ⟨p, hp⟩ := processPage_ok i (h3 i (List.mem_cons_self i is))
      refine ⟨p :: outs, ?_, by simp [hlen]⟩
      rw [preprocessGo, hp, hgo]
      rfl

/-- Claim C4, amended: page-level errors in the primary per-page pipeline
never escape the aggregators — the text path absorbs every per-page error
into a placeholder and succeeds on any non-empty page sequence, and the
preprocessing path succeeds with one result per page on any non-empty
page sequence whose per-page fallback saves succeed; however the
preprocessing fallback itself is unguarded, so the preprocessing
aggregator fails either when zero pages are found or when a page's
fallback encoding fails (C4_counterexample), while the text aggregator
fails only when zero pages are found. -/
theorem C4_page_error_containment (outcomes : List OcrOutcome)
    (inps : List PageInput) (h1 : outcomes ≠ []) (h2 : inps ≠ [])
    (h3 : ∀ i ∈ inps, i.fallbackSave = .ok ()) :
    (∃ doc, extract outcomes = .ok doc) ∧
    (∃ outs, preprocess inps = .ok outs ∧ outs.length = inps.length) := by
  constructor
  · cases outcomes with
    | nil => exact absurd rfl h1
    | cons a t => exact ⟨_, rfl⟩
  · cases inps with
    | nil => exact absurd rfl h2
    | cons i is =>
        obtain ⟨outs, hgo, hlen⟩ := preprocessGo_ok (i :: is) h3
        exact ⟨outs, hgo, hlen⟩

/-- Witness for C4_page_error_containment: a run in which the text page
raises and the preprocessing page fails at every primary stage, yet both
aggregators succeed. -/
theorem C4_page_error_containment_witness :
    (∃ doc, extract [.raises "ocr died"] = .ok doc) ∧
    (∃ outs,
      preprocess [⟨.error "ori fail", .raises "uw fail", .error "save fail", .ok ()⟩] =
        .ok outs ∧
      outs.length = [(⟨.error "ori fail", .raises "uw fail", .error "save fail", .ok ()⟩ :
        PageInput)].length) :=
  C4_page_error_containment [.raises "ocr died"]
    [⟨.error "ori fail", .raises "uw fail", .error "save fail", .ok ()⟩]
    (by decide) (by decide) (by decide)

/-- Helper: the size-capping loop can only exit with dimensions whose
encoding is within the ceiling, since the loop condition re-encodes and
re-tests on every iteration. -/
theorem capLoop_some_le (c : Codec) : ∀ (fuel : Nat) (p q : Nat × Nat),
    capLoop c fuel p = some q → c.enc q.1 q.2 ≤ MAX_JPEG_BYTES := by
  intro fuel
  induction fuel with
  | zero =>
      intro p q hq
      simp [capLoop] at hq
  | succ n ih =>
      intro p q hq
      obtain ⟨w, ht⟩ := p
      have he : capLoop c (n + 1) (w, ht) =
          if MAX_JPEG_BYTES < c.enc w ht then capLoop c n (shrinkDim w, shrinkDim ht)
          else some (w, ht) := rfl
      rw [he] at hq
      by_cases hgt : MAX_JPEG_BYTES < c.enc w ht
      · rw [if_pos hgt] at hq
        exact ih _ q hq
      · rw [if_neg hgt] at hq
        injection hq with hq
        rw [← hq]
        exact Nat.le_of_not_lt hgt

/-- Claim C8: whenever save_capped_jpeg returns, the byte size it writes
is at most the 5 MiB ceiling — the size-capping loop exits only once the
encoded size no longer exceeds MAX_JPEG_BYTES, downscaling both
dimensions by 0.85 and re-encoding on every iteration until then. -/
theorem C8_size_cap (c : Codec) (fuel w h n : Nat)
    (hs : save_capped_jpeg c fuel w h = some n) : n ≤ MAX_JPEG_BYTES := by
  unfold save_capped_jpeg at hs
  cases hc : capLoop c fuel (w, h) with
  | none => rw [hc] at hs; simp at hs
  | some q =>
      rw [hc] at hs
      injection hs with hs
      rw [← hs]
      exact capLoop_some_le c fuel (w, h) q hc

/-- Witness for C8_size_cap: a 3000 by 3000 image under the pixel-count
codec needs two shrink iterations and lands under the ceiling. -/
theorem C8_size_cap_witness :
    save_capped_jpeg areaCodec 5 3000 3000 = some 4695889 ∧
    4695889 ≤ MAX_JPEG_BYTES :=
  ⟨by decide, C8_size_cap areaCodec 5 3000 3000 4695889 (by decide)⟩

/-- Helper: under the always-oversize codec the size-capping loop never
exits, for any fuel and any starting dimensions. -/
theorem oversize_capLoop_none : ∀ (fuel : Nat) (p : Nat × Nat),
    capLoop oversizeCodec fuel p = none
  | 0, _ => rfl
  | fuel + 1, (w, h) => by
      have he : capLoop oversizeCodec (fuel + 1) (w, h) =
          if MAX_JPEG_BYTES < oversizeCodec.enc w h then
            capLoop oversizeCodec fuel (shrinkDim w, shrinkDim h)
          else some (w, h) := rfl
      rw [he, if_pos (show MAX_JPEG_BYTES < oversizeCodec.enc w h from
        Nat.lt_succ_self MAX_JPEG_BYTES)]
      exact oversize_capLoop_none fuel _

/-- Counterexample to claim C9 as stated: termination does not follow
from the loop structure alone even with a positive ceiling and a shrink
factor below one — under an encoder that always reports a size above the
ceiling (possible, since the integer dimensions bottom out at zero and
stop changing), the loop of save_capped_jpeg runs forever on a 100 by 100
image. -/
theorem C9_counterexample : loopsForever oversizeCodec (100, 100) :=
  fun fuel => oversize_capLoop_none fuel (100, 100)

/-- Helper: if the size-capping loop exits, some iterate of the
downscaling has an encoding within the ceiling. -/
theorem capLoop_some_reaches (c : Codec) : ∀ (fuel w h : Nat) (q : Nat × Nat),
    capLoop c fuel (w, h) = some q →
    ∃ k, c.enc (shrinkDim^[k] w) (shrinkDim^[k] h) ≤ MAX_JPEG_BYTES := by
  intro fuel
  induction fuel with
  | zero =>
      intro w h q hq
      simp [capLoop] at hq
  | succ n ih =>
      intro w h q hq
      have he : capLoop c (n + 1) (w, h) =
          if MAX_JPEG_BYTES < c.enc w h then capLoop c n (shrinkDim w, shrinkDim h)
          else some (w, h) := rfl
      rw [he] at hq
      by_cases hgt : MAX_JPEG_BYTES < c.enc w h
      · rw [if_pos hgt] at hq
        obtain ⟨k, hk⟩ := ih (shrinkDim w) (shrinkDim h) q hq
        refine ⟨k + 1, ?_⟩
        rw [Function.iterate_succ_apply, Function.iterate_succ_apply]
        exact hk
      · exact ⟨0, by simpa using Nat.le_of_not_lt hgt⟩

/-- Helper: if some iterate of the downscaling has an encoding within the
ceiling, the size-capping loop exits with enough fuel. -/
theorem reaches_capLoop_some (c : Codec) : ∀ (k w h : Nat),
    c.enc (shrinkDim^[k] w) (shrinkDim^[k] h) ≤ MAX_JPEG_BYTES →
    ∃ fuel q, capLoop c fuel (w, h) = some q := by
  intro k
  induction k with
  | zero =>
      intro w h hk
      refine ⟨1, (w, h), ?_⟩
      have he : capLoop c 1 (w, h) =
          if MAX_JPEG_BYTES < c.enc w h then capLoop c 0 (shrinkDim w, shrinkDim h)
          else some (w, h) := rfl
      rw [he, if_neg (Nat.not_lt.mpr (by simpa using hk))]
  | succ n ih =>
      intro w h hk
      by_cases hle : c.enc w h ≤ MAX_JPEG_BYTES
      · refine ⟨1, (w, h), ?_⟩
        have he : capLoop c 1 (w, h) =
            if MAX_JPEG_BYTES < c.enc w h then capLoop c 0 (shrinkDim w, shrinkDim h)
            else some (w, h) := rfl
        rw [he, if_neg (Nat.not_lt.mpr hle)]
      · obtain ⟨fuel, q, hq⟩ := ih (shrinkDim w) (shrinkDim h)
          (by rw [← Function.iterate_succ_apply, ← Function.iterate_succ_apply]; exact hk)
        refine ⟨fuel + 1, q, ?_⟩
        have he : capLoop c (fuel + 1) (w, h) =
            if MAX_JPEG_BYTES < c.enc w h then capLoop c fuel (shrinkDim w, shrinkDim h)
            else some (w, h) := rfl
        rw [he, if_pos (Nat.lt_of_not_le hle)]
        exact hq

/-- Claim C9, amended: the size-capping loop terminates if and only if
some iterate of the 0.85 downscaling reaches dimensions whose encoding is
within the ceiling; termination therefore depends on the encoder's size
behaviour on the reachable dimensions, not on the loop structure alone
(C9_counterexample shows an encoder for which it runs forever). -/
theorem C9_capLoop_terminates_iff (c : Codec) (w h : Nat) :
    (∃ fuel q, capLoop c fuel (w, h) = some q) ↔
    (∃ k, c.enc (shrinkDim^[k] w) (shrinkDim^[k] h) ≤ MAX_JPEG_BYTES) := by
  constructor
  · rintro ⟨fuel, q, hq⟩
    exact capLoop_some_reaches c fuel w h q hq
  · rintro ⟨k, hk⟩
    exact reaches_capLoop_some c k w h hk
